import Mathlib

/-!
Shallow embedding of the requirement-optimizer core of the `oipromot`
repository (files `src/core_optimizer.py` and `src/simple_cli.py`), together
with proofs about the embedded operations.

Python strings are modelled as `List Char`; `str.lower`, `str.strip`,
`str.startswith`, `in` (substring) and `str.upper` on a single character are
modelled character-wise (they agree with Python on ASCII, which is all the
code's patterns use).  The chat-completion endpoint is modelled as an oracle
`Chat : List Char → List Char → Except (List Char) (List Char)` taking the
system prompt and the user message and returning either the reply text or the
text of the raised exception; wall-clock response times are not modelled.
-/

namespace Oipromot

/-- Python strings as lists of characters. -/
abbrev Str := List Char

/-- The character list of a Lean string literal. -/
def str (s : String) : Str := s.data

/-- Models Python `str.lower()` (character-wise; exact on ASCII). -/
def lowerL (s : Str) : Str := s.map Char.toLower

/-- Models Python `str.strip()`: drop whitespace from both ends. -/
def stripL (s : Str) : Str :=
  ((s.dropWhile Char.isWhitespace).reverse.dropWhile Char.isWhitespace).reverse

/-- Models Python `pat in s` (substring containment). -/
def containsL (pat : Str) : Str → Bool
  | [] => pat.isPrefixOf []
  | c :: t => pat.isPrefixOf (c :: t) || containsL pat t

/-- Models `cleaned[0].upper() + cleaned[1:]` on a non-empty string
(`[]` for the empty string, matching the `if cleaned:` guard). -/
def capitalizeFirst : Str → Str
  | [] => []
  | c :: t => c.toUpper :: t

/-- `src/oipromot/utils/language.py`, `is_chinese`: true iff some character
lies between `'\u4e00'` and `'\u9fff'`. -/
def is_chinese (s : Str) : Bool :=
  s.any (fun c => '\u4e00' ≤ c && c ≤ '\u9fff')

/-- `src/core_optimizer.py`, `RequirementOptimizer._detect_chinese`
(same body as `is_chinese`). -/
def detectChinese (s : Str) : Bool :=
  s.any (fun c => '\u4e00' ≤ c && c ≤ '\u9fff')

/-! ## Prompt template strings (`core_optimizer.py`, `_get_prompt`) -/

/-- Chinese "optimization" system prompt (`core_optimizer.py` lines 116–127;
also `simple_cli.py` lines 153–164). -/
def zhOptimizationPrompt : Str := str "你是一个需求分析专家，同时也是Excel和Word专家。你的任务是将用户的原始输入转化为清晰、准确的需求描述。\n\n要求：\n1. 只描述用户想要什么，不要添加如何实现的建议\n2. 使用简洁、专业的语言\n3. 保持需求的核心意图\n4. 去除冗余信息\n5. 确保描述完整且明确\n6. 如果涉及Excel或Word功能，准确理解相关术语和需求\n7. 输出结果必须以列表形式展示，每个需求点用数字编号\n\n请将以下用户输入转化为清晰的需求描述："

/-- English "optimization" system prompt (`core_optimizer.py` lines 129–140;
also `simple_cli.py` lines 169–180). -/
def enOptimizationPrompt : Str := str "You are a requirement analysis expert and also an Excel and Word expert. Your task is to transform the user's raw input into a clear, accurate requirement description.\n\nRequirements:\n1. Only describe what the user wants, do not add suggestions on how to implement\n2. Use concise, professional language\n3. Maintain the core intent of the requirement\n4. Remove redundant information\n5. Ensure the description is complete and clear\n6. If involving Excel or Word features, accurately understand related terms and requirements\n7. Output result must be in list format, with each requirement point numbered\n\nPlease transform the following user input into a clear requirement description:"

/-- Chinese "refinement" system prompt (`core_optimizer.py` lines 144–154). -/
def zhRefinementPrompt : Str := str "你是一个需求分析专家，同时也是Excel和Word专家。根据用户的反馈，调整和优化之前的需求描述。\n\n要求：\n1. 根据用户反馈调整需求描述\n2. 保持专业和简洁\n3. 确保调整后的描述更符合用户意图\n4. 不要添加实现建议，只描述需求\n5. 如果涉及Excel或Word功能，准确理解相关术语和需求\n6. 输出结果必须以列表形式展示，每个需求点用数字编号\n\n请提供调整后的需求描述："

/-- English "refinement" system prompt (`core_optimizer.py` lines 156–166). -/
def enRefinementPrompt : Str := str "You are a requirement analysis expert and also an Excel and Word expert. Based on user feedback, adjust and optimize the previous requirement description.\n\nRequirements:\n1. Adjust requirement description based on user feedback\n2. Keep it professional and concise\n3. Ensure the adjusted description better matches user intent\n4. Do not add implementation suggestions, only describe requirements\n5. If involving Excel or Word features, accurately understand related terms and requirements\n6. Output result must be in list format, with each requirement point numbered\n\nPlease provide the adjusted requirement description:"

/-- `RequirementOptimizer._get_prompt(text, mode)`: selects a template by the
language of `text` and the `mode` string; raises `ValueError` (modelled with
`Except.error`) for any other mode. -/
def getPrompt (text : Str) (mode : String) : Except String Str :=
  let isZh := detectChinese text
  if mode = "optimization" then
    .ok (if isZh then zhOptimizationPrompt else enOptimizationPrompt)
  else if mode = "refinement" then
    .ok (if isZh then zhRefinementPrompt else enRefinementPrompt)
  else
    .error ("Unknown mode: " ++ mode)

/-- `RequirementOptimizer._get_optimization_prompt` (the `.error` branch is
unreachable: `"optimization"` is a recognized mode). -/
def getOptimizationPrompt (userInput : Str) : Str :=
  match getPrompt userInput "optimization" with
  | .ok s => s
  | .error _ => []

/-- `RequirementOptimizer._get_refinement_prompt`. -/
def getRefinementPrompt (feedback : Str) : Str :=
  match getPrompt feedback "refinement" with
  | .ok s => s
  | .error _ => []

/-! ## Error classification (`core_optimizer.py`, `_format_error`) -/

/-- The optimizer's configuration read once at construction
(`API_BASE_URL` and the model name). -/
structure OptCfg where
  baseUrl : Str
  model : Str
deriving DecidableEq

/-- The `{type, message, suggestion}` dictionary built by `_format_error`. -/
structure ErrInfo where
  etype : Str
  message : Str
  suggestion : Str
deriving DecidableEq

/-- `RequirementOptimizer._format_error`: classify the exception text by
substring match on its lower-cased form, first match wins. -/
def formatError (cfg : OptCfg) (error : Str) : ErrInfo :=
  let error_str := lowerL error
  if containsL (str "connection") error_str || containsL (str "timeout") error_str
      || containsL (str "network") error_str then
    ⟨str "连接错误", str "无法连接到API服务器 (" ++ cfg.baseUrl ++ str ")",
     str "请检查网络连接和API服务器地址配置"⟩
  else if containsL (str "unauthorized") error_str || containsL (str "401") error_str
      || containsL (str "api key") error_str then
    ⟨str "认证错误", str "API密钥验证失败", str "请检查.env文件中的API_KEY配置是否正确"⟩
  else if containsL (str "rate limit") error_str || containsL (str "429") error_str then
    ⟨str "频率限制", str "API调用频率超出限制", str "请稍等片刻后重试，或检查API配额"⟩
  else if containsL (str "model") error_str
      && (containsL (str "not found") error_str || containsL (str "404") error_str) then
    ⟨str "模型错误", str "模型 '" ++ cfg.model ++ str "' 不可用",
     str "请检查.env文件中的AI_MODEL配置，确保模型名称正确"⟩
  else if containsL (str "500") error_str || containsL (str "502") error_str
      || containsL (str "503") error_str then
    ⟨str "服务器错误", str "API服务器内部错误", str "服务器暂时不可用，请稍后重试"⟩
  else if containsL (str "json") error_str || containsL (str "parse") error_str then
    ⟨str "响应格式错误", str "API响应格式异常", str "API服务可能不兼容，请检查API_BASE_URL配置"⟩
  else
    ⟨str "未知错误", error, str "请检查网络连接和API配置，或联系技术支持"⟩

/-- The spec's error taxonomy (§7). -/
inductive ErrKind where
  | connectionError
  | authenticationError
  | rateLimitError
  | modelError
  | serverError
  | responseFormatError
  | unknownError
deriving DecidableEq

/-- Modelled from the spec's words (§7): classification "by substring match
on the lower-cased exception/response text, first match wins", in the spec's
priority order.  Compared against `formatError` (the code) in claim C3. -/
def errKindSpec (raw : Str) : ErrKind :=
  let error_str := lowerL raw
  if containsL (str "connection") error_str || containsL (str "timeout") error_str
      || containsL (str "network") error_str then .connectionError
  else if containsL (str "unauthorized") error_str || containsL (str "401") error_str
      || containsL (str "api key") error_str then .authenticationError
  else if containsL (str "rate limit") error_str || containsL (str "429") error_str then
    .rateLimitError
  else if containsL (str "model") error_str
      && (containsL (str "not found") error_str || containsL (str "404") error_str) then
    .modelError
  else if containsL (str "500") error_str || containsL (str "502") error_str
      || containsL (str "503") error_str then .serverError
  else if containsL (str "json") error_str || containsL (str "parse") error_str then
    .responseFormatError
  else .unknownError

/-- The `type` label `_format_error` attaches to each error kind. -/
def kindLabel : ErrKind → Str
  | .connectionError => str "连接错误"
  | .authenticationError => str "认证错误"
  | .rateLimitError => str "频率限制"
  | .modelError => str "模型错误"
  | .serverError => str "服务器错误"
  | .responseFormatError => str "响应格式错误"
  | .unknownError => str "未知错误"

/-! ## Fallback cleaner (`_simple_clean`, identical in both files) -/

/-- The fixed filler-pattern list of `_simple_clean`, in source order. -/
def fillerPatterns : List Str :=
  [str "please help me", str "can you help me", str "i need help with",
   str "i want to", str "i would like to", str "could you", str "can you",
   str "请帮我", str "你能帮我", str "我想要", str "我需要", str "能不能", str "可以吗"]

/-- `RequirementOptimizer._simple_clean`: strip, drop the first filler pattern
the lower-cased text starts with (the loop `break`s after the first match),
strip again, then capitalize the first letter if non-empty. -/
def simpleClean (userInput : Str) : Str :=
  let cleaned := stripL userInput
  let lowerCleaned := lowerL cleaned
  let cleaned :=
    match fillerPatterns.find? (fun pattern => pattern.isPrefixOf lowerCleaned) with
    | some pattern => stripL (cleaned.drop pattern.length)
    | none => cleaned
  capitalizeFirst cleaned

/-! ## Chat-completion calls

The endpoint is an oracle from (system prompt, user message) to either the
reply text or the text of the raised exception. -/

/-- A chat-completion endpoint. -/
abbrev Chat := Str → Str → Except Str Str

/-- The success/error dictionary returned by `core_optimizer.py`'s
`_call_api` (and consumed by `optimize_requirement` / `refine_requirement`
/ `SessionManager`). -/
inductive ApiResult where
  | ok (result : Str) (mode : Str)
  | err (info : ErrInfo)
deriving DecidableEq

/-- Whether the dictionary has no `"error"` key. -/
def ApiResult.isOk : ApiResult → Bool
  | .ok .. => true
  | .err _ => false

/-- `core_optimizer.py`, `RequirementOptimizer._call_api`: on a reply,
`.strip()` the content and label it `"标准模式"`; on an exception, return the
dictionary built by `_format_error`.  The Python return type is
`Optional[Dict]` but every branch returns a (non-empty, hence truthy)
dictionary, which `some` mirrors. -/
def coreCallApi (cfg : OptCfg) (chat : Chat) (systemPrompt userMessage : Str) :
    Option ApiResult :=
  match chat systemPrompt userMessage with
  | .ok content => some (.ok (stripL content) (str "标准模式"))
  | .error e => some (.err (formatError cfg e))

/-- `core_optimizer.py`, `RequirementOptimizer.optimize_requirement`:
call the API; `if result: return result`; otherwise return the cleaned
input labelled `"回退模式"`. -/
def coreOptimize (cfg : OptCfg) (chat : Chat) (userInput : Str) : ApiResult :=
  let systemPrompt := getOptimizationPrompt userInput
  match coreCallApi cfg chat systemPrompt userInput with
  | some result => result
  | none => .ok (simpleClean userInput) (str "回退模式")

/-- The (system prompt, user message) pair built by
`core_optimizer.py`'s `refine_requirement` (lines 81–89). -/
def coreRefineRequest (initialResult feedback : Str) : Str × Str :=
  let isZh := detectChinese feedback
  (getRefinementPrompt feedback,
   if isZh then
     str "之前的需求描述：" ++ initialResult ++ str "\n用户反馈：" ++ feedback
   else
     str "Previous requirement description: " ++ initialResult
       ++ str "\nUser feedback: " ++ feedback)

/-- The bracketed feedback note of `refine_requirement`'s fallback branch
(`core_optimizer.py` line 97); its language follows `_detect_chinese(feedback)`. -/
def coreFallbackNote (feedback : Str) : Str :=
  if detectChinese feedback then str "[用户反馈: " ++ feedback ++ str "]"
  else str "[User feedback: " ++ feedback ++ str "]"

/-- `core_optimizer.py`, `RequirementOptimizer.refine_requirement`. -/
def coreRefine (cfg : OptCfg) (chat : Chat) (initialResult feedback : Str) :
    ApiResult :=
  let req := coreRefineRequest initialResult feedback
  match coreCallApi cfg chat req.1 req.2 with
  | some result => result
  | none =>
    .ok (initialResult ++ str "\n\n" ++ coreFallbackNote feedback) (str "回退模式")

/-! ## The `simple_cli.py` variant of the optimizer -/

/-- `<think>` (7 characters). -/
def openTagL : Str := str "<think>"

/-- `</think>` (8 characters). -/
def closeTagL : Str := str "</think>"

/-- The suffix that follows the first occurrence of `pat` in the list
(the list is only consumed; callers establish that an occurrence exists). -/
def dropAfterFirst (pat : Str) : Str → Str
  | [] => []
  | c :: t => if pat.isPrefixOf (c :: t) then (c :: t).drop pat.length
              else dropAfterFirst pat t

theorem dropAfterFirst_length_le (pat : Str) (l : Str) :
    (dropAfterFirst pat l).length ≤ l.length := by
  induction l with
  | nil => simp [dropAfterFirst]
  | cons c t ih =>
    simp only [dropAfterFirst]
    split
    · simp [List.length_drop]
    · simpa using Nat.le_succ_of_le ih

/-- Models `re.sub(r'<think>.*?</think>', '', result, flags=re.DOTALL)`:
scan left to right; at a position starting with `<think>` and with a later
`</think>`, delete through the first `</think>` and continue after it;
otherwise keep the character and move on. -/
def removeThink (s : Str) : Str :=
  match s with
  | [] => []
  | c :: t =>
    if h : (openTagL.isPrefixOf (c :: t) && containsL closeTagL ((c :: t).drop 7)) = true then
      removeThink (dropAfterFirst closeTagL ((c :: t).drop 7))
    else
      c :: removeThink t
termination_by s.length
decreasing_by
  · rw [Bool.and_eq_true] at h
    have hpre : openTagL <+: (c :: t) := List.isPrefixOf_iff_prefix.mp h.1
    have hlen : (7 : ℕ) ≤ (c :: t).length := by
      simpa [openTagL, str] using hpre.length_le
    have h1 := dropAfterFirst_length_le closeTagL ((c :: t).drop 7)
    have h2 : ((c :: t).drop 7).length = (c :: t).length - 7 := List.length_drop 7 _
    simp only [List.length_cons] at *
    omega
  · simp

/-- The post-processing of a successful reply in `simple_cli.py`'s
`_call_api` (lines 276–280): strip; if `no_think` and `'<think>' in result`,
remove think spans and strip again. -/
def simplePostProcess (noThink : Bool) (content : Str) : Str :=
  let result := stripL content
  if noThink && containsL openTagL result then stripL (removeThink result)
  else result

/-- `simple_cli.py`, `RequirementOptimizer._call_api`: appends `"/no_think"`
to the system prompt when `no_think` is set, post-processes a reply, and
returns `None` on an exception. -/
def simpleCallApi (noThink : Bool) (chat : Chat) (systemPrompt userMessage : Str) :
    Option Str :=
  let systemPrompt := if noThink then systemPrompt ++ str "/no_think" else systemPrompt
  match chat systemPrompt userMessage with
  | .ok content => some (simplePostProcess noThink content)
  | .error _ => none

/-- Chinese no-think "optimization" prompt (`simple_cli.py` line 151). -/
def sZhOptNoThink : Str := str "直接转化用户输入为清晰的需求描述。请以列表形式输出，每个需求点用数字编号。只输出最终结果，不要思考过程，不要解释。"

/-- English no-think "optimization" prompt (`simple_cli.py` line 167). -/
def sEnOptNoThink : Str := str "Transform user input into clear requirement description. Please output in list format, with each requirement point numbered. Output final result only, no thinking process, no explanation."

/-- Chinese no-think "refinement" prompt (`simple_cli.py` line 206). -/
def sZhRefNoThink : Str := str "根据用户反馈调整需求描述。请以列表形式输出，每个需求点用数字编号。只输出最终结果，不要思考过程。"

/-- English no-think "refinement" prompt (`simple_cli.py` line 220). -/
def sEnRefNoThink : Str := str "Adjust requirement description based on user feedback. Please output in list format, with each requirement point numbered. Output final result only, no thinking process."

/-- Chinese full "refinement" prompt of `simple_cli.py` (lines 208–217;
unlike `core_optimizer.py`'s, it has no Excel/Word line and five items). -/
def sZhRefFull : Str := str "你是一个需求分析专家。根据用户的反馈，调整和优化之前的需求描述。\n\n要求：\n1. 根据用户反馈调整需求描述\n2. 保持专业和简洁\n3. 确保调整后的描述更符合用户意图\n4. 不要添加实现建议，只描述需求\n5. 输出结果必须以列表形式展示，每个需求点用数字编号\n\n请提供调整后的需求描述："

/-- English full "refinement" prompt of `simple_cli.py` (lines 222–231). -/
def sEnRefFull : Str := str "You are a requirement analysis expert. Based on user feedback, adjust and optimize the previous requirement description.\n\nRequirements:\n1. Adjust requirement description based on user feedback\n2. Keep it professional and concise\n3. Ensure the adjusted description better matches user intent\n4. Do not add implementation suggestions, only describe requirements\n5. Output result must be in list format, with each requirement point numbered\n\nPlease provide the adjusted requirement description:"

/-- System prompt selection of `simple_cli.py`'s `optimize_requirement`
(lines 146–180); the full variants are the same strings as
`core_optimizer.py`'s. -/
def simpleOptimizePrompt (noThink : Bool) (userInput : Str) : Str :=
  if is_chinese userInput then
    if noThink then sZhOptNoThink else zhOptimizationPrompt
  else
    if noThink then sEnOptNoThink else enOptimizationPrompt

/-- `simple_cli.py`, `RequirementOptimizer.optimize_requirement`: returns the
reply, or `_simple_clean(user_input)` when `_call_api` returned `None`. -/
def simpleOptimize (noThink : Bool) (chat : Chat) (userInput : Str) : Str :=
  let systemPrompt := simpleOptimizePrompt noThink userInput
  match simpleCallApi noThink chat systemPrompt userInput with
  | some result => result
  | none => simpleClean userInput

/-- The (system prompt, user message) pair built by `simple_cli.py`'s
`refine_requirement` (lines 201–234). -/
def simpleRefineRequest (noThink : Bool) (initialResult feedback : Str) : Str × Str :=
  let isZh := is_chinese feedback
  (if isZh then
     if noThink then sZhRefNoThink else sZhRefFull
   else
     if noThink then sEnRefNoThink else sEnRefFull,
   if isZh then
     str "之前的需求描述：" ++ initialResult ++ str "\n用户反馈：" ++ feedback
   else
     str "Previous requirement description: " ++ initialResult
       ++ str "\nUser feedback: " ++ feedback)

/-- `simple_cli.py`, `RequirementOptimizer.refine_requirement`: on a `None`
from `_call_api`, the fallback is always the English-annotated concatenation
(line 240). -/
def simpleRefine (noThink : Bool) (chat : Chat) (initialResult feedback : Str) : Str :=
  let req := simpleRefineRequest noThink initialResult feedback
  match simpleCallApi noThink chat req.1 req.2 with
  | some result => result
  | none => initialResult ++ str "\n\n[User feedback: " ++ feedback ++ str "]"

/-! ## SessionManager (`core_optimizer.py` lines 311–425) -/

/-- The session status strings `"IDLE" | "PROCESSING" | "WAITING_FEEDBACK"
| "ERROR"`. -/
inductive SessStatus where
  | idle
  | processing
  | waitingFeedback
  | error
deriving DecidableEq

/-- The mutable fields of a `SessionManager`. -/
structure SessState where
  currentRequirement : Str
  currentFeedback : Str
  status : SessStatus
deriving DecidableEq

/-- The typed envelope a session operation returns (the `type` key of the
returned dictionary selects the constructor). -/
inductive SessResp where
  | aiResponse (content mode : Str)
  | aiResponseRefined (content mode : Str)
  | errorResp (content etype esuggestion : Str)
  | newConversation (content : Str)
deriving DecidableEq

/-- `SessionManager._format_error_message`. -/
def formatErrorMessage (info : ErrInfo) : Str :=
  let base := str "【" ++ info.etype ++ str "】" ++ info.message
  if info.suggestion.isEmpty then base
  else base ++ str "\n\n💡 建议: " ++ info.suggestion

/-- `SessionManager.reset_session`. -/
def resetSession (st : SessState) : SessState × SessResp :=
  ({ st with currentRequirement := [], currentFeedback := [], status := .idle },
   .newConversation (str "开始新对话"))

/-- `SessionManager.start_session`. -/
def startSession (cfg : OptCfg) (chat : Chat) (st : SessState) (userInput : Str) :
    SessState × SessResp :=
  let st := { st with currentRequirement := userInput, currentFeedback := [],
                      status := .processing }
  match coreOptimize cfg chat userInput with
  | .err info =>
    ({ st with status := .error },
     .errorResp (formatErrorMessage info) info.etype info.suggestion)
  | .ok result mode =>
    ({ st with status := .waitingFeedback }, .aiResponse result mode)

/-- `SessionManager.handle_feedback`. -/
def handleFeedback (cfg : OptCfg) (chat : Chat) (st : SessState) (feedback : Str) :
    SessState × SessResp :=
  if lowerL feedback == str "/n" || lowerL feedback == str "n" then
    resetSession st
  else
    let st1 := { st with currentFeedback := feedback, status := .processing }
    match coreRefine cfg chat st.currentRequirement feedback with
    | .err info =>
      ({ st1 with status := .error },
       .errorResp (formatErrorMessage info) info.etype info.suggestion)
    | .ok result mode =>
      ({ st1 with status := .waitingFeedback }, .aiResponseRefined result mode)

/-! ## Concrete instances used by counterexamples and witnesses -/

/-- The default configuration of `RequirementOptimizer.__init__`. -/
def cfg0 : OptCfg := ⟨str "http://localhost:11434/v1", str "qwen3:1.7b"⟩

/-- An endpoint whose call always raises a connection error. -/
def chatFail0 : Chat := fun _ _ => .error (str "Connection refused")

/-- An endpoint that always replies `"fine"`. -/
def chatOk0 : Chat := fun _ _ => .ok (str "fine")

/-- A session that has just produced a successful first response. -/
def st0 : SessState := ⟨str "make a report", [], .waitingFeedback⟩

/-! ## General helper lemmas about the string model -/

theorem dropWhile_all_append {p : Char → Bool} {a : Str} (h : ∀ c ∈ a, p c = true)
    (b : Str) : (a ++ b).dropWhile p = b.dropWhile p := by
  induction a with
  | nil => rfl
  | cons c t ih =>
    have hc : p c = true := h c (by simp)
    simp only [List.cons_append, List.dropWhile_cons, hc, if_pos]
    exact ih (fun x hx => h x (by simp [hx]))

theorem dropWhile_all_nil {p : Char → Bool} {a : Str} (h : ∀ c ∈ a, p c = true) :
    a.dropWhile p = [] :=
  List.dropWhile_eq_nil_iff.mpr h

theorem dropWhile_eq_self_append {p : Char → Bool} {l : Str}
    (hl : l.dropWhile p = l) (hne : l ≠ []) (r : Str) :
    (l ++ r).dropWhile p = l ++ r := by
  cases l with
  | nil => exact absurd rfl hne
  | cons c t =>
    have hc : p c = false := by
      by_contra hcne
      have hc : p c = true := by
        cases hpc : p c with
        | false => exact absurd hpc hcne
        | true => rfl
      rw [List.dropWhile_cons, if_pos hc] at hl
      have := congrArg List.length hl
      have hle := (List.dropWhile_suffix (l := t) p).length_le
      simp at this
      omega
    simp [List.dropWhile_cons, hc]

theorem strip_eq_self {l : Str} (h : stripL l = l) :
    l.dropWhile Char.isWhitespace = l
      ∧ l.reverse.dropWhile Char.isWhitespace = l.reverse := by
  have hlen := congrArg List.length h
  simp only [stripL, List.length_reverse] at hlen
  have h1 := (List.dropWhile_suffix (l := l) Char.isWhitespace).length_le
  have h2 := (List.dropWhile_suffix
    (l := (l.dropWhile Char.isWhitespace).reverse) Char.isWhitespace).length_le
  rw [List.length_reverse] at h2
  have hAlen : (l.dropWhile Char.isWhitespace).length = l.length := by omega
  obtain ⟨u, hu⟩ := List.dropWhile_suffix (l := l) Char.isWhitespace
  have hulen : u.length = 0 := by
    have := congrArg List.length hu
    rw [List.length_append, hAlen] at this
    omega
  have hA : l.dropWhile Char.isWhitespace = l := by
    rw [List.eq_nil_of_length_eq_zero hulen, List.nil_append] at hu
    exact hu
  refine ⟨hA, ?_⟩
  simp only [stripL, hA] at h
  calc l.reverse.dropWhile Char.isWhitespace
      = ((l.reverse.dropWhile Char.isWhitespace).reverse).reverse :=
        (List.reverse_reverse _).symm
    _ = l.reverse := by rw [h]

theorem stripL_eq_self_of {l : Str} (h1 : l.dropWhile Char.isWhitespace = l)
    (h2 : l.reverse.dropWhile Char.isWhitespace = l.reverse) : stripL l = l := by
  rw [stripL, h1, h2, List.reverse_reverse]

theorem stripPad {ws1 ws2 : Str} (h1 : ∀ c ∈ ws1, c.isWhitespace = true)
    (h2 : ∀ c ∈ ws2, c.isWhitespace = true) (P : Str) :
    stripL (ws1 ++ P ++ ws2) = stripL P := by
  have hrev : ∀ c ∈ ws2.reverse, c.isWhitespace = true :=
    fun c hc => h2 c (by simpa using hc)
  rw [stripL, List.append_assoc, dropWhile_all_append h1]
  cases hA : P.dropWhile Char.isWhitespace with
  | nil =>
    have hallP : ∀ c ∈ P, c.isWhitespace = true := List.dropWhile_eq_nil_iff.mp hA
    rw [dropWhile_all_append hallP, dropWhile_all_nil h2]
    simp [stripL, hA]
  | cons x r =>
    have h5 : (P ++ ws2).dropWhile Char.isWhitespace = (x :: r) ++ ws2 := by
      rw [List.dropWhile_append, hA]; rfl
    rw [h5, List.reverse_append, dropWhile_all_append hrev]
    simp [stripL, hA]

theorem isPrefixOf_append_self (l r : Str) : l.isPrefixOf (l ++ r) = true :=
  List.isPrefixOf_iff_prefix.mpr (List.prefix_append l r)

theorem containsL_append_self (pat r : Str) : containsL pat (pat ++ r) = true := by
  cases pat with
  | nil => cases r <;> simp [containsL, List.isPrefixOf]
  | cons p ps =>
    show containsL (p :: ps) ((p :: ps) ++ r) = true
    rw [List.cons_append, containsL, ← List.cons_append, isPrefixOf_append_self]
    rfl

theorem containsL_append_left (pat a r : Str) :
    containsL pat (a ++ (pat ++ r)) = true := by
  induction a with
  | nil => simpa using containsL_append_self pat r
  | cons c t ih =>
    rw [List.cons_append, containsL, ih]
    simp

theorem not_space_lt (c : Char) (hc : c.isWhitespace = true) : c ≠ '<' := by
  intro he
  rw [he] at hc
  exact absurd hc (by decide)

theorem containsL_openTag_space_append {a x : Str}
    (ha : ∀ c ∈ a, c.isWhitespace = true) (hx : containsL openTagL x = false) :
    containsL openTagL (a ++ x) = false := by
  induction a with
  | nil => simpa using hx
  | cons c t ih =>
    have hc : c ≠ '<' := not_space_lt c (ha c (by simp))
    have hpre : openTagL.isPrefixOf (c :: (t ++ x)) = false := by
      simp only [openTagL, str, List.isPrefixOf]
      simp [bne, hc, Ne.symm hc]
    rw [List.cons_append, containsL, hpre, ih (fun d hd => ha d (by simp [hd]))]
    rfl

theorem dropAfterFirst_no_open {b rest : Str} (hb : '<' ∉ b) :
    dropAfterFirst closeTagL (b ++ (closeTagL ++ rest)) = rest := by
  induction b with
  | nil =>
    rw [List.nil_append]
    show dropAfterFirst closeTagL (closeTagL ++ rest) = rest
    have h8 : closeTagL ++ rest = '<' :: (str "/think>" ++ rest) := rfl
    rw [h8, dropAfterFirst, ← h8]
    rw [if_pos (isPrefixOf_append_self closeTagL rest)]
    exact List.drop_left closeTagL rest
  | cons c t ih =>
    have hc : c ≠ '<' := fun he => hb (he ▸ List.mem_cons_self c t)
    have hpre : closeTagL.isPrefixOf (c :: (t ++ (closeTagL ++ rest))) = false := by
      simp only [closeTagL, str, List.isPrefixOf]
      simp [bne, hc, Ne.symm hc]
    rw [List.cons_append, dropAfterFirst, if_neg (by simp [hpre])]
    exact ih (fun hm => hb (List.mem_cons_of_mem c hm))

theorem removeThink_of_not_contains {l : Str} (h : containsL openTagL l = false) :
    removeThink l = l := by
  induction l with
  | nil => rw [removeThink]
  | cons c t ih =>
    rw [containsL] at h
    have h1 : openTagL.isPrefixOf (c :: t) = false := by
      cases hp : openTagL.isPrefixOf (c :: t) with
      | false => rfl
      | true => rw [hp] at h; simp at h
    have h2 : containsL openTagL t = false := by
      rw [h1] at h; simpa using h
    rw [removeThink, dif_neg (by simp [h1]), ih h2]

theorem removeThink_block {b rest : Str} (hb : '<' ∉ b) :
    removeThink (openTagL ++ (b ++ (closeTagL ++ rest))) = removeThink rest := by
  have h8 : openTagL ++ (b ++ (closeTagL ++ rest))
      = '<' :: (str "think>" ++ (b ++ (closeTagL ++ rest))) := rfl
  have hdrop : (openTagL ++ (b ++ (closeTagL ++ rest))).drop 7 = b ++ (closeTagL ++ rest) :=
    List.drop_left openTagL _
  have hcond : (openTagL.isPrefixOf (openTagL ++ (b ++ (closeTagL ++ rest)))
      && containsL closeTagL ((openTagL ++ (b ++ (closeTagL ++ rest))).drop 7)) = true := by
    rw [hdrop, isPrefixOf_append_self, containsL_append_left]
    rfl
  rw [h8, removeThink, ← h8]
  rw [dif_pos hcond, hdrop, dropAfterFirst_no_open hb]

theorem chineseChar_iff (c : Char) :
    ('一' ≤ c && c ≤ '鿿') = true ↔ 0x4e00 ≤ c.toNat ∧ c.toNat ≤ 0x9fff := by
  simp [Bool.and_eq_true, Char.le_def, UInt32.le_def, Char.toNat, UInt32.toNat,
    Fin.le_def, BitVec.le_def]

/-! ## The claims -/

/-- C5: `is_chinese(s)` (equivalently `_detect_chinese`) is true iff `s`
contains at least one character with code point in U+4E00–U+9FFF; it is false
for `"hello"`, true for `"你好"` and for the mixed `"hi 你"`. -/
theorem claim_C5 :
    (∀ s : Str, is_chinese s = true ↔ ∃ c ∈ s, 0x4e00 ≤ c.toNat ∧ c.toNat ≤ 0x9fff)
    ∧ (∀ s : Str, detectChinese s = is_chinese s)
    ∧ is_chinese (str "hello") = false
    ∧ is_chinese (str "你好") = true
    ∧ is_chinese (str "hi 你") = true := by
  refine ⟨?_, fun s => rfl, by decide, by decide, by decide⟩
  intro s
  rw [is_chinese, List.any_eq_true]
  exact exists_congr fun c => and_congr_right fun _ => chineseChar_iff c

/-- C3: the code's error classification (`_format_error`) agrees with the
spec's first-match-wins substring taxonomy on every exception text, and the
texts `"401 Unauthorized"` / `"Connection timed out"` classify as
authentication / connection errors, not as unknown errors. -/
theorem claim_C3 :
    (∀ (cfg : OptCfg) (e : Str), (formatError cfg e).etype = kindLabel (errKindSpec e))
    ∧ errKindSpec (str "401 Unauthorized") = ErrKind.authenticationError
    ∧ errKindSpec (str "Connection timed out") = ErrKind.connectionError
    ∧ (formatError cfg0 (str "401 Unauthorized")).etype = kindLabel ErrKind.authenticationError
    ∧ (formatError cfg0 (str "Connection timed out")).etype = kindLabel ErrKind.connectionError
    ∧ kindLabel ErrKind.authenticationError ≠ kindLabel ErrKind.unknownError
    ∧ kindLabel ErrKind.connectionError ≠ kindLabel ErrKind.unknownError := by
  refine ⟨?_, by decide, by decide, by decide, by decide, by decide, by decide⟩
  intro cfg e
  simp only [formatError, errKindSpec]
  split_ifs <;> rfl

/-- C9: `_get_prompt` fails (raises) exactly on the unrecognized modes, and
for the two recognized modes returns fixed, language-selected instruction
strings, Chinese and English variants distinct; being a pure function it is
stable across repeated calls. -/
theorem claim_C9 :
    (∀ (t : Str) (mode : String), mode ≠ "optimization" → mode ≠ "refinement" →
        getPrompt t mode = .error ("Unknown mode: " ++ mode))
    ∧ (∀ t : Str,
        getPrompt t "optimization"
          = .ok (if detectChinese t then zhOptimizationPrompt else enOptimizationPrompt)
        ∧ getPrompt t "refinement"
          = .ok (if detectChinese t then zhRefinementPrompt else enRefinementPrompt))
    ∧ (∀ (t : Str) (mode : String), getPrompt t mode = getPrompt t mode)
    ∧ zhOptimizationPrompt ≠ enOptimizationPrompt
    ∧ zhRefinementPrompt ≠ enRefinementPrompt := by
  refine ⟨?_, ?_, fun t mode => rfl, by decide, by decide⟩
  · intro t mode h1 h2
    simp [getPrompt, h1, h2]
  · intro t
    exact ⟨rfl, rfl⟩

/-- C9 witness: the unrecognized mode `"modes"` at a concrete text. -/
theorem claim_C9_w :
    getPrompt (str "x") "modes" = .error ("Unknown mode: " ++ "modes") :=
  claim_C9.1 (str "x") "modes" (by decide) (by decide)

/-- C1 counterexample: with an endpoint that always raises a connection
error, `core_optimizer.py`'s `optimize_requirement("test")` returns an
error-shaped dictionary — not the Success-shaped fallback the claim
states — because `_call_api` returns a truthy error dictionary, so
`if result: return result` also returns failures. -/
theorem claim_C1_cex :
    (coreOptimize cfg0 chatFail0 (str "test")).isOk = false
    ∧ coreOptimize cfg0 chatFail0 (str "test")
        ≠ ApiResult.ok (simpleClean (str "test")) (str "回退模式") := by decide

/-- C1 (amended): neither variant propagates the exception; on a failing
call `core_optimizer.py`'s `optimize_requirement` returns the classified
error dictionary (its cleanup fallback is unreachable), while
`simple_cli.py`'s returns the deterministic cleanup of the input. -/
theorem claim_C1_amended :
    ∀ (cfg : OptCfg) (e userInput : Str) (noThink : Bool),
      coreOptimize cfg (fun _ _ => .error e) userInput = .err (formatError cfg e)
      ∧ simpleOptimize noThink (fun _ _ => .error e) userInput = simpleClean userInput :=
  fun _ _ _ _ => ⟨rfl, rfl⟩

/-- C7 counterexample: on a failing call during refine, the core variant
returns an error value (not prior result + annotation), and the simple CLI
variant annotates in English even for Chinese feedback, differing from the
feedback-language annotation the claim states. -/
theorem claim_C7_cex :
    (coreRefine cfg0 chatFail0 (str "p") (str "改")).isOk = false
    ∧ simpleRefine false chatFail0 (str "p") (str "改")
        = str "p" ++ str "\n\n[User feedback: " ++ str "改" ++ str "]"
    ∧ coreFallbackNote (str "改") = str "[用户反馈: 改]"
    ∧ str "p" ++ str "\n\n[User feedback: " ++ str "改" ++ str "]"
        ≠ str "p" ++ str "\n\n" ++ coreFallbackNote (str "改") := by decide

/-- C7 (amended): when the chat call fails during refine,
`core_optimizer.py` returns the classified error (its annotation fallback is
unreachable), and `simple_cli.py` returns the prior result concatenated with
a bracketed feedback annotation that is always in English. -/
theorem claim_C7_amended :
    ∀ (cfg : OptCfg) (e prior feedback : Str) (noThink : Bool),
      coreRefine cfg (fun _ _ => .error e) prior feedback = .err (formatError cfg e)
      ∧ simpleRefine noThink (fun _ _ => .error e) prior feedback
          = prior ++ str "\n\n[User feedback: " ++ feedback ++ str "]" :=
  fun _ _ _ _ _ => ⟨rfl, rfl⟩

/-- C8: the refine operation's language choices — system-prompt variant, user
message template, fallback-annotation language — are functions of the feedback
text's Chinese-character detection alone, identical across distinct prior
results, in both optimizer variants. -/
theorem claim_C8 :
    ∀ (p1 p2 feedback : Str),
      (coreRefineRequest p1 feedback).1 = (coreRefineRequest p2 feedback).1
      ∧ ((coreRefineRequest p1 feedback).1
          = if detectChinese feedback then zhRefinementPrompt else enRefinementPrompt)
      ∧ (∀ noThink : Bool,
          (simpleRefineRequest noThink p1 feedback).1
            = (simpleRefineRequest noThink p2 feedback).1)
      ∧ ((coreRefineRequest p1 feedback).2
          = if detectChinese feedback then
              str "之前的需求描述：" ++ p1 ++ str "\n用户反馈：" ++ feedback
            else
              str "Previous requirement description: " ++ p1
                ++ str "\nUser feedback: " ++ feedback)
      ∧ (coreFallbackNote feedback
          = if detectChinese feedback then str "[用户反馈: " ++ feedback ++ str "]"
            else str "[User feedback: " ++ feedback ++ str "]") :=
  fun _ _ _ => ⟨rfl, rfl, fun _ => rfl, rfl, rfl⟩

/-- C4: feedback that case-insensitively equals `"/n"` or `"n"` makes
`handle_feedback` behave exactly like `reset_session` — fields cleared,
status `IDLE`, a `new_conversation` result — independently of the optimizer
configuration and endpoint (the optimizer is not consulted). -/
theorem claim_C4 :
    ∀ (cfg cfg2 : OptCfg) (chat chat2 : Chat) (st : SessState) (feedback : Str),
      lowerL feedback = str "/n" ∨ lowerL feedback = str "n" →
        handleFeedback cfg chat st feedback = resetSession st
        ∧ handleFeedback cfg chat st feedback = handleFeedback cfg2 chat2 st feedback
        ∧ (resetSession st).1.currentRequirement = []
        ∧ (resetSession st).1.currentFeedback = []
        ∧ (resetSession st).1.status = SessStatus.idle
        ∧ (resetSession st).2 = SessResp.newConversation (str "开始新对话") := by
  intro cfg cfg2 chat chat2 st feedback h
  have hcond : (lowerL feedback == str "/n" || lowerL feedback == str "n") = true := by
    rcases h with h | h <;> simp [h]
  refine ⟨?_, ?_, rfl, rfl, rfl, rfl⟩ <;> simp [handleFeedback, hcond]

/-- C4 witness: the upper-case reset command `"N"` on a live session. -/
theorem claim_C4_w :
    handleFeedback cfg0 chatOk0 st0 (str "N") = resetSession st0
    ∧ handleFeedback cfg0 chatOk0 st0 (str "N") = handleFeedback cfg0 chatFail0 st0 (str "N")
    ∧ (resetSession st0).1.currentRequirement = []
    ∧ (resetSession st0).1.currentFeedback = []
    ∧ (resetSession st0).1.status = SessStatus.idle
    ∧ (resetSession st0).2 = SessResp.newConversation (str "开始新对话") :=
  claim_C4 cfg0 cfg0 chatOk0 chatFail0 st0 (str "N") (Or.inr (by decide))

/-- C2 counterexample: `handle_feedback("n")` completes with status `IDLE`,
a value outside the `{WAITING_FEEDBACK, ERROR}` set the claim allows for
these operations' completion. -/
theorem claim_C2_cex :
    (handleFeedback cfg0 chatOk0 st0 (str "n")).1.status = SessStatus.idle
    ∧ SessStatus.idle ≠ SessStatus.waitingFeedback
    ∧ SessStatus.idle ≠ SessStatus.error := by decide

/-- C2 (amended): except for the reset commands `"/n"`/`"n"` (which leave
status `IDLE`), `start_session` and `handle_feedback` complete with status
`WAITING_FEEDBACK` exactly when the optimizer result carries no error and
`ERROR` exactly when it does. -/
theorem claim_C2_amended :
    ∀ (cfg : OptCfg) (chat : Chat) (st : SessState) (userInput feedback : Str),
      ((startSession cfg chat st userInput).1.status
          = if (coreOptimize cfg chat userInput).isOk then SessStatus.waitingFeedback
            else SessStatus.error)
      ∧ (lowerL feedback ≠ str "/n" → lowerL feedback ≠ str "n" →
          (handleFeedback cfg chat st feedback).1.status
            = if (coreRefine cfg chat st.currentRequirement feedback).isOk
              then SessStatus.waitingFeedback else SessStatus.error)
      ∧ ((lowerL feedback = str "/n" ∨ lowerL feedback = str "n") →
          (handleFeedback cfg chat st feedback).1.status = SessStatus.idle) := by
  intro cfg chat st userInput feedback
  refine ⟨?_, ?_, ?_⟩
  · cases h : coreOptimize cfg chat userInput with
    | ok r m => simp [startSession, h, ApiResult.isOk]
    | err info => simp [startSession, h, ApiResult.isOk]
  · intro h1 h2
    have hcond : (lowerL feedback == str "/n" || lowerL feedback == str "n") = false := by
      simp [beq_eq_false_iff_ne, h1, h2]
    cases h : coreRefine cfg chat st.currentRequirement feedback with
    | ok r m => simp [handleFeedback, hcond, h, ApiResult.isOk]
    | err info => simp [handleFeedback, hcond, h, ApiResult.isOk]
  · intro h
    have hcond : (lowerL feedback == str "/n" || lowerL feedback == str "n") = true := by
      rcases h with h | h <;> simp [h]
    simp [handleFeedback, hcond, resetSession]

/-- C10: `_simple_clean` returns the empty string on whitespace-only input
without error; it strips only the first matching filler pattern and stops,
as the general `"can you help me <rest>"` law and the concrete example with
a second filler phrase remaining show. -/
theorem claim_C10 :
    (∀ s : Str, (∀ c ∈ s, c.isWhitespace = true) → simpleClean s = [])
    ∧ (∀ rest : Str, rest ≠ [] → stripL rest = rest →
        simpleClean (str "can you help me " ++ rest) = capitalizeFirst rest)
    ∧ simpleClean (str "can you help me please help me write a report")
        = str "Please help me write a report"
    ∧ (str "please help me").isPrefixOf
        (lowerL (simpleClean (str "can you help me please help me write a report")))
      = true := by
  refine ⟨?_, ?_, by decide, by decide⟩
  · intro s hs
    have h1 : stripL s = [] := by
      rw [stripL, dropWhile_all_nil hs]
      rfl
    simp only [simpleClean, h1]
    decide
  · intro rest hne hstr
    obtain ⟨hd1, hd2⟩ := strip_eq_self hstr
    have hL : (str "can you help me " ++ rest).dropWhile Char.isWhitespace
        = str "can you help me " ++ rest :=
      dropWhile_eq_self_append (by decide) (by decide) rest
    have hR : (str "can you help me " ++ rest).reverse.dropWhile Char.isWhitespace
        = (str "can you help me " ++ rest).reverse := by
      rw [List.reverse_append]
      exact dropWhile_eq_self_append hd2
        (fun hrev => hne (List.reverse_eq_nil_iff.mp hrev)) _
    have hstrip : stripL (str "can you help me " ++ rest)
        = str "can you help me " ++ rest := stripL_eq_self_of hL hR
    have hlow : lowerL (str "can you help me " ++ rest)
        = str "can you help me " ++ lowerL rest := by
      simp only [lowerL, List.map_append]
      rw [show List.map Char.toLower (str "can you help me ") = str "can you help me "
        from by decide]
    have hp1 : (str "please help me").isPrefixOf (str "can you help me " ++ lowerL rest)
        = false := by
      rw [show str "please help me" = 'p' :: str "lease help me" from rfl,
        show str "can you help me " ++ lowerL rest
          = 'c' :: (str "an you help me " ++ lowerL rest) from rfl]
      simp [List.isPrefixOf]
    have hp2 : (str "can you help me").isPrefixOf (str "can you help me " ++ lowerL rest)
        = true := by
      rw [show str "can you help me " ++ lowerL rest
          = str "can you help me" ++ (' ' :: lowerL rest) from by
        rw [show str "can you help me " = str "can you help me" ++ [' '] from by decide,
          List.append_assoc]
        rfl]
      exact isPrefixOf_append_self _ _
    have hfind : fillerPatterns.find?
        (fun pattern => pattern.isPrefixOf (str "can you help me " ++ lowerL rest))
        = some (str "can you help me") := by
      simp only [fillerPatterns, List.find?, hp1, hp2]
    have hdrop : (str "can you help me " ++ rest).drop (str "can you help me").length
        = ' ' :: rest := by
      rw [List.drop_append_of_le_length (by decide),
        show (str "can you help me ").drop (str "can you help me").length = [' ']
          from by decide]
      rfl
    have hsp : stripL (' ' :: rest) = rest := by
      calc stripL (' ' :: rest) = stripL ([' '] ++ rest ++ []) := by
            rw [List.append_nil]; rfl
        _ = stripL rest := stripPad (by decide) (by decide) rest
        _ = rest := hstr
    simp only [simpleClean, hstrip, hlow, hfind, hdrop, hsp]

/-- C10 witness: whitespace-only input and a remaining second filler. -/
theorem claim_C10_w :
    simpleClean (str "   ") = []
    ∧ simpleClean (str "can you help me " ++ str "please help me write")
        = capitalizeFirst (str "please help me write") :=
  ⟨claim_C10.1 (str "   ") (by decide),
   (claim_C10.2.1 (str "please help me write") (by decide) (by decide))⟩

/-- C6 counterexample: an endpoint reply that is exactly `"X"` preceded by a
`<think>...</think>` block is returned with the block intact by
`core_optimizer.py`'s `_call_api` and by `simple_cli.py`'s with `no_think`
off — the block is not removed on every successful call. -/
theorem claim_C6_cex :
    coreCallApi cfg0 (fun _ _ => .ok (str "<think>a</think>X")) (str "s") (str "u")
      = some (.ok (str "<think>a</think>X") (str "标准模式"))
    ∧ str "<think>a</think>X" ≠ str "X"
    ∧ simpleCallApi false (fun _ _ => .ok (str "<think>a</think>X")) (str "s") (str "u")
      = some (str "<think>a</think>X") := by decide

/-- C6 (amended): whitespace is trimmed on every successful call, but the
`<think>...</think>` removal happens only in `simple_cli.py`'s client with
no-think mode enabled: there a reply that is exactly `X` surrounded by
whitespace and a think block comes back as exactly `X`, while the core client
(and the simple client without no-think) returns the whitespace-trimmed text,
round-tripping `X` when it is surrounded by whitespace alone. -/
theorem claim_C6_amended :
    ∀ (cfg : OptCfg) (ws1 ws2 ws3 b X sys user : Str),
      (∀ c ∈ ws1, c.isWhitespace = true) →
      (∀ c ∈ ws2, c.isWhitespace = true) →
      (∀ c ∈ ws3, c.isWhitespace = true) →
      stripL X = X → X ≠ [] → containsL openTagL X = false → '<' ∉ b →
      simpleCallApi true
          (fun _ _ => .ok (ws1 ++ (openTagL ++ (b ++ (closeTagL ++ (ws2 ++ X)))) ++ ws3))
          sys user = some X
      ∧ coreCallApi cfg (fun _ _ => .ok (ws1 ++ X ++ ws3)) sys user
          = some (.ok X (str "标准模式"))
      ∧ simpleCallApi false (fun _ _ => .ok (ws1 ++ X ++ ws3)) sys user = some X := by
  intro cfg ws1 ws2 ws3 b X sys user h1 h2 h3 hX hne hX3 hb
  obtain ⟨hXd1, hXd2⟩ := strip_eq_self hX
  have hP1 : (openTagL ++ (b ++ (closeTagL ++ (ws2 ++ X)))).dropWhile Char.isWhitespace
      = openTagL ++ (b ++ (closeTagL ++ (ws2 ++ X))) := by
    rw [show openTagL ++ (b ++ (closeTagL ++ (ws2 ++ X)))
        = '<' :: (str "think>" ++ (b ++ (closeTagL ++ (ws2 ++ X)))) from rfl,
      List.dropWhile_cons, if_neg (by decide)]
  have hP2 : (openTagL ++ (b ++ (closeTagL ++ (ws2 ++ X)))).reverse.dropWhile
      Char.isWhitespace = (openTagL ++ (b ++ (closeTagL ++ (ws2 ++ X)))).reverse := by
    have hrev : (openTagL ++ (b ++ (closeTagL ++ (ws2 ++ X)))).reverse
        = X.reverse ++ (ws2.reverse ++ (closeTagL.reverse
            ++ (b.reverse ++ openTagL.reverse))) := by
      simp [List.reverse_append, List.append_assoc]
    rw [hrev]
    exact dropWhile_eq_self_append hXd2
      (fun hrevnil => hne (List.reverse_eq_nil_iff.mp hrevnil)) _
  have hPstrip : stripL (openTagL ++ (b ++ (closeTagL ++ (ws2 ++ X))))
      = openTagL ++ (b ++ (closeTagL ++ (ws2 ++ X))) := stripL_eq_self_of hP1 hP2
  have hW2X : stripL (ws2 ++ X) = X := by
    calc stripL (ws2 ++ X) = stripL (ws2 ++ X ++ []) := by rw [List.append_nil]
      _ = stripL X := stripPad h2 (by simp) X
      _ = X := hX
  refine ⟨?_, ?_, ?_⟩
  · have hcall : simpleCallApi true
        (fun _ _ => .ok (ws1 ++ (openTagL ++ (b ++ (closeTagL ++ (ws2 ++ X)))) ++ ws3))
        sys user
        = some (simplePostProcess true
            (ws1 ++ (openTagL ++ (b ++ (closeTagL ++ (ws2 ++ X)))) ++ ws3)) := rfl
    rw [hcall]
    have hfull : stripL (ws1 ++ (openTagL ++ (b ++ (closeTagL ++ (ws2 ++ X)))) ++ ws3)
        = openTagL ++ (b ++ (closeTagL ++ (ws2 ++ X))) := by
      rw [stripPad h1 h3, hPstrip]
    have hcont : containsL openTagL (openTagL ++ (b ++ (closeTagL ++ (ws2 ++ X)))) = true :=
      containsL_append_self _ _
    have hrm : removeThink (openTagL ++ (b ++ (closeTagL ++ (ws2 ++ X)))) = ws2 ++ X := by
      rw [removeThink_block hb]
      exact removeThink_of_not_contains (containsL_openTag_space_append h2 hX3)
    simp only [simplePostProcess, hfull, hcont, Bool.and_self, if_pos, hrm, hW2X]
  · have hcall : coreCallApi cfg (fun _ _ => .ok (ws1 ++ X ++ ws3)) sys user
        = some (.ok (stripL (ws1 ++ X ++ ws3)) (str "标准模式")) := rfl
    rw [hcall, stripPad h1 h3, hX]
  · have hcall : simpleCallApi false (fun _ _ => .ok (ws1 ++ X ++ ws3)) sys user
        = some (simplePostProcess false (ws1 ++ X ++ ws3)) := rfl
    rw [hcall]
    simp only [simplePostProcess, Bool.false_and, Bool.false_eq_true, if_false]
    rw [stripPad h1 h3, hX]

/-- C6 witness: a concrete reply `"  <think>a</think>\n\nX "`. -/
theorem claim_C6_w :
    simpleCallApi true
        (fun _ _ => .ok (str "  " ++ (openTagL ++ (str "a" ++ (closeTagL
          ++ (str "\n\n" ++ str "X")))) ++ str " ")) [] []
      = some (str "X")
    ∧ coreCallApi cfg0 (fun _ _ => .ok (str "  " ++ str "X" ++ str " ")) [] []
        = some (.ok (str "X") (str "标准模式"))
    ∧ simpleCallApi false (fun _ _ => .ok (str "  " ++ str "X" ++ str " ")) [] []
        = some (str "X") :=
  claim_C6_amended cfg0 (str "  ") (str "\n\n") (str " ") (str "a") (str "X") [] []
    (by decide) (by decide) (by decide) (by decide) (by decide) (by decide) (by decide)

end Oipromot
